import Mathlib

/-!
Verification development for three instructional statistics scripts:
a normality checker (ISP_checkNormality.py), a one-group mean tester
(ISP_oneGroup.py), and a time-series analysis pipeline (ISP_TimeSeries.py).

The scripts are shallowly embedded: pure arithmetic is translated to
functions over `ℚ` and `ℝ`, calls into the statistics libraries are either
modelled by their mathematical definition (means, variances, the Student-t
tail probability) or abstracted as oracle parameters, and fallible library
calls (file loading, network fetch, statistical tests) are modelled with
`Except`-valued parameters so that exception propagation is explicit.
-/

/- ------------------------------------------------------------------ -/
/- Shared numeric helpers (np.mean, np.std(ddof=1), stats.sem).        -/
/- ------------------------------------------------------------------ -/

/-- Embedding of `np.mean(data)`: the arithmetic mean. -/
def npMean (data : List ℚ) : ℚ := data.sum / data.length

/-- Embedding of `np.std(data, ddof=1) ** 2`: the sample variance with
denominator `N - 1` (the source explicitly passes `ddof=1`). -/
def sampleVar (data : List ℚ) : ℚ :=
  ((data.map (fun x => (x - npMean data) ^ 2)).sum) / ((data.length : ℚ) - 1)

/-- Embedding of `scipy.stats.sem(data)`: the standard error of the mean,
`std(data, ddof=1) / sqrt(N)`, i.e. the square root of `sampleVar / N`. -/
noncomputable def sem (data : List ℚ) : ℝ :=
  Real.sqrt ((sampleVar data : ℝ) / (data.length : ℝ))

/- ------------------------------------------------------------------ -/
/- ISP_oneGroup.py, check_mean: confidence interval (lines 40-43).     -/
/- ------------------------------------------------------------------ -/

/-- The probability argument the source passes to the Student-t quantile
function when building the confidence interval in `check_mean`
(source: `tf.ppf(0.975)`). -/
noncomputable def check_mean_ppf_arg : ℝ := 0.975

/-- Probability a distribution with cumulative distribution function `F`
assigns to the symmetric interval `[-tq, tq]`.  For the pivotal quantity
`(mean(data) - mu) / sem(data)`, which follows the Student-t distribution
with `N - 1` degrees of freedom, this is exactly the coverage level of the
interval `mean + sem * [-1, 1] * tq` computed in `check_mean`. -/
noncomputable def interval_coverage (F : ℝ → ℝ) (tq : ℝ) : ℝ := F tq - F (-tq)

/-- Embedding of `ci = np.mean(data) + stats.sem(data)*np.array([-1,1])*tf.ppf(0.975)`
from `check_mean`, with `tq` standing for the library quantile value
`tf.ppf(0.975)`. -/
noncomputable def check_mean_ci (data : List ℚ) (tq : ℝ) : ℝ × ℝ :=
  (((npMean data : ℚ) : ℝ) + sem data * (-1) * tq,
   ((npMean data : ℚ) : ℝ) + sem data * 1 * tq)

/-- A concrete strictly monotone function symmetric in the sense
`F (-x) = 1 - F x`, used to instantiate statements about abstract
distribution functions at an explicit input. -/
noncomputable def affineCdf : ℝ → ℝ := fun x => (x + 1) / 2

/- ------------------------------------------------------------------ -/
/- ISP_TimeSeries.py, fit_ARIMA_models: the order loop (lines 107-113). -/
/- ------------------------------------------------------------------ -/

/-- The list of ARIMA orders declared in `fit_ARIMA_models`
(source: `orders = [(1, 0, 1), (0, 0, 2)]`). -/
def fit_ARIMA_orders : List (ℕ × ℕ × ℕ) := [(1, 0, 1), (0, 0, 2)]

/-- The order actually passed to the `ARIMA` constructor in each iteration
of the loop in `fit_ARIMA_models`.  The source reads
`for order in orders: model = ARIMA(seasonal_decomposition.resid, order=(1,0,1))`:
the constructed order is the hard-coded tuple `(1, 0, 1)` in every
iteration, and the loop variable `order` is never used. -/
def fit_ARIMA_constructed_orders : List (ℕ × ℕ × ℕ) :=
  fit_ARIMA_orders.map (fun _ => (1, 0, 1))

/- ------------------------------------------------------------------ -/
/- ISP_oneGroup.py, check_mean: the one-sample t-test (lines 46-63).   -/
/- ------------------------------------------------------------------ -/

/-- Modelled from the spec: the contents of the input file `altman_91.txt`,
which is part of the repository but not under src/.  The `check_mean`
docstring identifies it as Altman's data on the average daily energy
intake (kJ) over 10 days of 11 healthy women; these are the 11 values of
that dataset. -/
def altman_91 : List ℚ :=
  [5260, 5470, 5640, 6180, 6390, 6515, 6805, 7515, 7515, 8230, 8770]

/-- The reference value `checkValue = 7725` in `check_mean`. -/
def checkValue : ℚ := 7725

/-- Square of the t statistic of `stats.ttest_1samp(data, m0)`:
`t = (mean - m0) / (s / sqrt N)` gives `t^2 = N * (mean - m0)^2 / s^2`,
a rational number. -/
def tstat_sq (data : List ℚ) (m0 : ℚ) : ℚ :=
  (data.length : ℚ) * (npMean data - m0) ^ 2 / sampleVar data

/-- Coefficient `a_j = C(2j, j) / 4^j` of the closed form of the Student-t
distribution function for even degrees of freedom; equivalently
`a_0 = 1`, `a_j = a_(j-1) * (2j-1) / (2j)`. -/
def tCoeff (j : ℕ) : ℚ := (Nat.choose (2 * j) j : ℚ) / 4 ^ j

/-- Partial sum `Σ_(j < m) a_j * (1 - x2)^j` appearing in the closed form
of the Student-t tail probability for even degrees of freedom. -/
def tSeriesSum (m : ℕ) (x2 : ℚ) : ℚ :=
  ((List.range m).map (fun j => tCoeff j * (1 - x2) ^ j)).sum

/-- Model of the two-sided p-value returned by `scipy.stats.ttest_1samp`
for a sample of even degrees of freedom `ν = N - 1`: with
`x = |t| / sqrt (ν + t^2)` the Student-t distribution function for even
`ν` has the closed form `P(|T| ≤ |t|) = x * Σ_(j < ν/2) a_j (1 - x^2)^j`,
so the two-sided p-value is `1 - x * Σ_(j < ν/2) a_j (1 - x^2)^j`.
Here `x^2 = t^2 / (ν + t^2)` is rational, so only one real square root
appears. -/
noncomputable def ttest_p_two_sided (data : List ℚ) (m0 : ℚ) : ℝ :=
  let t2 : ℚ := tstat_sq data m0
  let ν : ℕ := data.length - 1
  let x2 : ℚ := t2 / (ν + t2)
  1 - Real.sqrt (x2 : ℝ) * ((tSeriesSum (ν / 2) x2 : ℚ) : ℝ)

/-- The value returned by `check_mean`: the p-value `prob` of
`stats.ttest_1samp(data, checkValue)` on the Altman data. -/
noncomputable def check_mean_result : ℝ := ttest_p_two_sided altman_91 checkValue

/- ------------------------------------------------------------------ -/
/- ISP_TimeSeries.py, acf_and_pacf: seasonal decomposition (72-93).    -/
/- Model of statsmodels seasonal_decompose(model='additive',           -/
/- period=12, extrapolate_trend='freq') from its documented algorithm. -/
/- ------------------------------------------------------------------ -/

/-- Value of the series at index `i` (0 outside the range; the
decomposition only ever reads in-range indices). -/
def getD0 (x : List ℚ) (i : ℕ) : ℚ := x.getD i 0

/-- Centred moving average with even period `p`: the convolution filter
`(1/2, 1, ..., 1, 1/2) / p` over the window `[i - p/2, i + p/2]`, the
trend filter statsmodels uses for an even period. -/
def cma (x : List ℚ) (p i : ℕ) : ℚ :=
  ((getD0 x (i - p / 2) + getD0 x (i + p / 2)) / 2
    + ((List.range (p - 1)).map (fun j => getD0 x (i - p / 2 + 1 + j))).sum) / p

/-- Least-squares line through the `m` points `(a + j, y (a + j))` for
`j < m`, evaluated at abscissa `t`: the linear fit statsmodels uses to
extrapolate the trend over the edge indices when
`extrapolate_trend='freq'`. -/
def lsqFit (y : ℕ → ℚ) (a m : ℕ) (t : ℚ) : ℚ :=
  let idx := List.range m
  let sx : ℚ := (idx.map (fun j => ((a + j : ℕ) : ℚ))).sum
  let sy : ℚ := (idx.map (fun j => y (a + j))).sum
  let sxx : ℚ := (idx.map (fun j => ((a + j : ℕ) : ℚ) ^ 2)).sum
  let sxy : ℚ := (idx.map (fun j => ((a + j : ℕ) : ℚ) * y (a + j))).sum
  let slope := ((m : ℚ) * sxy - sx * sy) / ((m : ℚ) * sxx - sx ^ 2)
  let icept := (sy - slope * sx) / m
  icept + slope * t

/-- Trend component at index `i`: the centred moving average where the
full filter window fits inside the series, and otherwise — because the
source passes `extrapolate_trend='freq'` — the linear extrapolation of
the `p` nearest valid trend values, so the trend is defined at every
index and has no missing edge values. -/
def trendAt (x : List ℚ) (p i : ℕ) : ℚ :=
  let lo := p / 2
  let hi := x.length - p / 2
  if i < lo then lsqFit (fun j => cma x p j) lo p (i : ℚ)
  else if hi ≤ i then lsqFit (fun j => cma x p j) (hi - p) p (i : ℚ)
  else cma x p i

/-- Detrended series at index `i`: observed minus trend (additive model). -/
def detrended (x : List ℚ) (p i : ℕ) : ℚ := getD0 x i - trendAt x p i

/-- Mean of the detrended series over the indices congruent to `k`
modulo the period `p`. -/
def periodAvg (x : List ℚ) (p k : ℕ) : ℚ :=
  let idxs := (List.range x.length).filter (fun i => i % p = k)
  ((idxs.map (fun i => detrended x p i)).sum) / idxs.length

/-- Seasonal component at index `i`: the period averages, centred so that
they sum to zero over one period, tiled over the whole series. -/
def seasonalAt (x : List ℚ) (p i : ℕ) : ℚ :=
  periodAvg x p (i % p)
    - (((List.range p).map (fun k => periodAvg x p k)).sum) / p

/-- Residual component of the additive seasonal decomposition performed in
`acf_and_pacf`: `resid = observed - trend - seasonal`, one value per input
index. -/
def seasonal_decompose_resid (x : List ℚ) (p : ℕ) : List ℚ :=
  (List.range x.length).map (fun i => getD0 x i - trendAt x p i - seasonalAt x p i)

/- ------------------------------------------------------------------ -/
/- ISP_checkNormality.py, check_normality (lines 24-81).               -/
/- ------------------------------------------------------------------ -/

/-- Embedding of `np.mean` on a list of reals. -/
noncomputable def npMeanR (l : List ℝ) : ℝ := l.sum / l.length

/-- Embedding of `np.std(l, ddof=1) ** 2` on a list of reals. -/
noncomputable def sampleVarR (l : List ℝ) : ℝ :=
  ((l.map (fun x => (x - npMeanR l) ^ 2)).sum) / ((l.length : ℝ) - 1)

/-- Embedding of `np.std(l, ddof=1)` on a list of reals. -/
noncomputable def std1 (l : List ℝ) : ℝ := Real.sqrt (sampleVarR l)

/-- Embedding of the standardization `(l - np.mean(l)) / np.std(l, ddof=1)`
that `check_normality` applies before the Kolmogorov-Smirnov test. -/
noncomputable def standardize (l : List ℝ) : List ℝ :=
  l.map (fun x => (x - npMeanR l) / std1 l)

/-- Oracle bundle for the four library normality tests called in
`check_normality`; each maps a sample to its `(statistic, p-value)`
pair. -/
structure NormalityTests where
  normaltest : List ℝ → ℝ × ℝ
  shapiro : List ℝ → ℝ × ℝ
  lilliefors : List ℝ → ℝ × ℝ
  kstest : List ℝ → ℝ × ℝ

/-- Embedding of the statistics part of `check_normality`: `fewData` is the
first 100 points of the sample, the two pandas Series `pVals` and
`pFewVals` are association lists filled in source order, and the function
returns the entry of `pVals` keyed by the Kolmogorov-Smirnov test, i.e.
the p-value obtained on the standardized full sample. -/
noncomputable def check_normalityE (t : NormalityTests) (data : List ℝ) : ℝ :=
  let fewData := data.take 100
  let pVals : List (String × ℝ) :=
    [("Omnibus", (t.normaltest data).2),
     ("Shapiro-Wilk", (t.shapiro data).2),
     ("Lilliefors", (t.lilliefors data).2),
     ("Kolmogorov-Smirnov", (t.kstest (standardize data)).2)]
  let pFewVals : List (String × ℝ) :=
    [("Omnibus", (t.normaltest fewData).2),
     ("Shapiro-Wilk", (t.shapiro fewData).2),
     ("Lilliefors", (t.lilliefors fewData).2),
     ("Kolmogorov-Smirnov", (t.kstest (standardize fewData)).2)]
  ((pVals.lookup ("Kolmogorov-Smirnov")).getD 0)

/- ------------------------------------------------------------------ -/
/- Exception propagation (error_handling): the three functions with     -/
/- their fallible library calls modelled as Except-valued parameters.   -/
/- ------------------------------------------------------------------ -/

/-- Embedding of `check_mean` at the level of its fallible library calls:
`np.genfromtxt` (file loading), `stats.ttest_1samp` and `stats.wilcoxon`
(statistical tests) either return a value or raise.  The source wraps
none of them in try/except, so each raise short-circuits the function
body, which is exactly the nested-match structure below.  On success the
function returns `prob`, the t-test p-value. -/
def check_meanExc {ε : Type} (genfromtxt : Except ε (List ℚ))
    (ttest_1samp : List ℚ → ℚ → Except ε (ℝ × ℝ))
    (wilcoxon : List ℚ → Except ε (ℝ × ℝ)) : Except ε ℝ :=
  match genfromtxt with
  | Except.error e => Except.error e
  | Except.ok data =>
    match ttest_1samp data checkValue with
    | Except.error e => Except.error e
    | Except.ok tp =>
      match wilcoxon (data.map (fun x => x - checkValue)) with
      | Except.error e => Except.error e
      | Except.ok _ => Except.ok tp.2

/-- Embedding of `check_normality` at the level of its fallible library
calls, in source order: `normaltest`, `shapiro`, `lilliefors` and
`kstest`, each called first on the full sample and then on the first 100
points, none wrapped in try/except.  On success it returns the
Kolmogorov-Smirnov p-value of the standardized full sample. -/
noncomputable def check_normalityExc {ε : Type}
    (normaltest shapiro lilliefors kstest : List ℝ → Except ε (ℝ × ℝ))
    (data : List ℝ) : Except ε ℝ :=
  let fewData := data.take 100
  match normaltest data with
  | Except.error e => Except.error e
  | Except.ok _ =>
    match normaltest fewData with
    | Except.error e => Except.error e
    | Except.ok _ =>
      match shapiro data with
      | Except.error e => Except.error e
      | Except.ok _ =>
        match shapiro fewData with
        | Except.error e => Except.error e
        | Except.ok _ =>
          match lilliefors data with
          | Except.error e => Except.error e
          | Except.ok _ =>
            match lilliefors fewData with
            | Except.error e => Except.error e
            | Except.ok _ =>
              match kstest (standardize data) with
              | Except.error e => Except.error e
              | Except.ok ks =>
                match kstest (standardize fewData) with
                | Except.error e => Except.error e
                | Except.ok _ => Except.ok ks.2

/-- Embedding of `get_CO2_data` at the level of its fallible library call:
`pd.read_csv` on the remote URL (network fetch) either returns the data
frame or raises; the source has no try/except, so a raise propagates and
on success the frame is returned unchanged. -/
def get_CO2_dataExc (ε DF : Type) (read_csv : Except ε DF) : Except ε DF :=
  match read_csv with
  | Except.error e => Except.error e
  | Except.ok df => Except.ok df

/- ------------------------------------------------------------------ -/
/- ISP_oneGroup.py, compareWithNormal: the print statement (129-130).  -/
/- ------------------------------------------------------------------ -/

/-- The text printed by the comparison line of `compareWithNormal`.  The
source concatenates three string literals: the first and third carry the
`f` interpolation marker, the middle one does not, so the middle segment
contributes its characters verbatim — including the placeholder text
between braces — while in the third segment the interpolated field is
replaced by the formatted value of `normProb`.  The parameter `fmt`
models Python's fixed-point float formatting (the `:5.4f` conversion);
`tProb` is in scope in the source but, the middle segment being a plain
literal, is never formatted into the output. -/
def compareWithNormal_printed (fmt : ℝ → String) (tProb normProb : ℝ) : String :=
  "The probability from the t-test is " ++ "\x7btProb:5.4f\x7d, "
    ++ ("and from the normal distribution " ++ fmt normProb)

/- ------------------------------------------------------------------ -/
/- Theorems.                                                           -/
/- ------------------------------------------------------------------ -/

/-- C1: in `fit_ARIMA_models` the order passed to the ARIMA constructor
does NOT equal the current element of the order list in every iteration:
at the second iteration the list element is (0,0,2) but the constructed
order is the hard-coded (1,0,1).  This contradicts the source's own
comment ("Fit two different ARIMA-models") and the spec. -/
theorem fit_ARIMA_order_mismatch :
    fit_ARIMA_orders.getD 1 (0, 0, 0) = (0, 0, 2) ∧
      fit_ARIMA_constructed_orders.getD 1 (0, 0, 0) = (1, 0, 1) ∧
      fit_ARIMA_constructed_orders ≠ fit_ARIMA_orders := by
  refine ⟨rfl, rfl, ?_⟩
  decide

/-- C2 (counterexample): the claim "the interval built in `check_mean` with
quantile argument 0.975 has two-sided coverage 97.5%" is false.  Witnessed
at the explicit symmetric strictly monotone distribution function
`affineCdf` and quantile value 0.95: the quantile value satisfies
`F tq = 0.975`, yet the symmetric interval `[-tq, tq]` has coverage
`0.95`, not `0.975`. -/
theorem check_mean_ci_level_claim_false :
    (∀ x : ℝ, affineCdf (-x) = 1 - affineCdf x) ∧
      StrictMono affineCdf ∧
      affineCdf 0.95 = check_mean_ppf_arg ∧
      interval_coverage affineCdf 0.95 ≠ 0.975 := by
  refine ⟨fun x => by unfold affineCdf; ring, ?_, ?_, ?_⟩
  · intro a b hab
    unfold affineCdf
    linarith
  · unfold affineCdf check_mean_ppf_arg
    norm_num
  · unfold interval_coverage affineCdf
    norm_num

/-- C2 (amended): for every distribution function `F` symmetric about zero
(as the Student-t distribution is) the quantile value the source obtains
from `tf.ppf(0.975)` yields a two-sided interval of coverage 95%, not
97.5%: `interval_coverage F tq = 2 * 0.975 - 1 = 0.95`. -/
theorem check_mean_ci_level_is_95 (F : ℝ → ℝ) (tq : ℝ)
    (hsym : ∀ x, F (-x) = 1 - F x) (hq : F tq = check_mean_ppf_arg) :
    interval_coverage F tq = 0.95 := by
  unfold interval_coverage
  rw [hsym, hq]
  unfold check_mean_ppf_arg
  norm_num

/-- C2 (witness): the amended statement evaluated at the explicit symmetric
distribution function `affineCdf` with quantile value 0.95. -/
theorem check_mean_ci_level_is_95_witness :
    (∀ x : ℝ, affineCdf (-x) = 1 - affineCdf x) ∧
      affineCdf 0.95 = check_mean_ppf_arg ∧
      interval_coverage affineCdf 0.95 = 0.95 := by
  have hsym : ∀ x : ℝ, affineCdf (-x) = 1 - affineCdf x := fun x => by
    unfold affineCdf; ring
  have hq : affineCdf 0.95 = check_mean_ppf_arg := by
    unfold affineCdf check_mean_ppf_arg; norm_num
  exact ⟨hsym, hq, check_mean_ci_level_is_95 affineCdf 0.95 hsym hq⟩

/-- C3: for every sample with strictly positive standard error of the mean,
the confidence interval computed in `check_mean` brackets the sample mean:
`ci.1 < mean(data) < ci.2`.  The quantile value `tq` is the library value
`tf.ppf(0.975)`: it is characterised abstractly by `F tq = 0.975` for the
strictly monotone symmetric distribution function `F` of the Student-t
distribution, which forces `tq > 0`. -/
theorem check_mean_ci_brackets_mean (data : List ℚ) (F : ℝ → ℝ) (tq : ℝ)
    (hmono : StrictMono F) (hsym : ∀ x, F (-x) = 1 - F x)
    (hq : F tq = check_mean_ppf_arg) (hsem : 0 < sem data) :
    (check_mean_ci data tq).1 < ((npMean data : ℚ) : ℝ) ∧
      ((npMean data : ℚ) : ℝ) < (check_mean_ci data tq).2 := by
  have h0 : F 0 = 1 / 2 := by
    have h := hsym 0
    rw [neg_zero] at h
    linarith
  have htq : 0 < tq := by
    have hlt : F 0 < F tq := by
      rw [h0, hq]
      unfold check_mean_ppf_arg
      norm_num
    exact hmono.lt_iff_lt.mp hlt
  have hpos : 0 < sem data * tq := mul_pos hsem htq
  unfold check_mean_ci
  constructor
  · simp only
    nlinarith
  · simp only
    nlinarith

/-- C3 (witness): the bracketing statement evaluated at the concrete sample
[0, 2] (mean 1, sample variance 2, sem 1) with the explicit symmetric
strictly monotone distribution function `affineCdf` and quantile value
0.95. -/
theorem check_mean_ci_brackets_mean_witness :
    0 < sem [0, 2] ∧
      ((check_mean_ci [0, 2] 0.95).1 < ((npMean [0, 2] : ℚ) : ℝ) ∧
        ((npMean [0, 2] : ℚ) : ℝ) < (check_mean_ci [0, 2] 0.95).2) := by
  have hmono : StrictMono affineCdf := by
    intro a b hab
    unfold affineCdf
    linarith
  have hsym : ∀ x : ℝ, affineCdf (-x) = 1 - affineCdf x := fun x => by
    unfold affineCdf; ring
  have hq : affineCdf 0.95 = check_mean_ppf_arg := by
    unfold affineCdf check_mean_ppf_arg; norm_num
  have hvar : sampleVar [0, 2] = 2 := by
    norm_num [sampleVar, npMean]
  have hsem : 0 < sem [0, 2] := by
    unfold sem
    rw [Real.sqrt_pos, hvar]
    norm_num
  exact ⟨hsem, check_mean_ci_brackets_mean [0, 2] affineCdf 0.95 hmono hsym hq hsem⟩

/-- C4: for the fixed input file altman_91.txt, `check_mean` returns the
p-value of the one-sample t-test of the data against the reference value
7725, and this value is the documented literal 0.018137235176105802 up to
an error below 10^(-12). -/
theorem check_mean_p_value_literal :
    |check_mean_result - 0.018137235176105802| < 1 / 10 ^ 12 := by
  have hlen : altman_91.length = 11 := by rfl
  have ht2 : tstat_sq altman_91 checkValue = 4566769 / 573956 := by
    norm_num [tstat_sq, sampleVar, npMean, altman_91, checkValue]
  have hS : tSeriesSum 5 (4566769 / 10306329) =
      16642335665646717626214053101 / 11282777084578107753149850081 := by
    norm_num [tSeriesSum, tCoeff, List.range_succ, Nat.choose]
  have hkey : check_mean_result =
      1 - Real.sqrt (4566769 / 10306329 : ℝ) *
        (16642335665646717626214053101 / 11282777084578107753149850081 : ℝ) := by
    unfold check_mean_result ttest_p_two_sided
    rw [ht2, hlen]
    norm_num [hS]
  have hS0 : (0 : ℝ) <
      16642335665646717626214053101 / 11282777084578107753149850081 := by
    norm_num
  have hl : (665660092773104359 / 10 ^ 18 : ℝ) <
      Real.sqrt (4566769 / 10306329 : ℝ) := by
    rw [show (665660092773104359 / 10 ^ 18 : ℝ) < Real.sqrt (4566769 / 10306329 : ℝ) ↔
        (665660092773104359 / 10 ^ 18 : ℝ) ^ 2 < (4566769 / 10306329 : ℝ) from
      Real.lt_sqrt (by norm_num)]
    norm_num
  have hu : Real.sqrt (4566769 / 10306329 : ℝ) <
      665660092773104360 / 10 ^ 18 := by
    rw [Real.sqrt_lt' (by norm_num)]
    norm_num
  have hub := mul_lt_mul_of_pos_right hu hS0
  have hlb := mul_lt_mul_of_pos_right hl hS0
  rw [hkey, abs_lt]
  constructor
  · nlinarith [hub, hlb]
  · nlinarith [hub, hlb]

/-- C7: for every input series accepted by the seasonal decomposition in
`acf_and_pacf` (statsmodels requires at least two full periods of data),
the residual component has exactly the length of the input: with
`extrapolate_trend='freq'` the trend is extrapolated over the edge
indices, so the edge effect is zero and no residual entry is dropped. -/
theorem seasonal_resid_length (x : List ℚ) (h : 2 * 12 ≤ x.length) :
    (seasonal_decompose_resid x 12).length = x.length := by
  unfold seasonal_decompose_resid
  rw [List.length_map, List.length_range]

/-- C7 (witness): the residual-length statement evaluated at a concrete
series of 24 monthly values. -/
theorem seasonal_resid_length_witness :
    2 * 12 ≤ (List.replicate 24 (0 : ℚ)).length ∧
      (seasonal_decompose_resid (List.replicate 24 (0 : ℚ)) 12).length =
        (List.replicate 24 (0 : ℚ)).length := by
  have h : 2 * 12 ≤ (List.replicate 24 (0 : ℚ)).length := by
    rw [List.length_replicate]
  exact ⟨h, seasonal_resid_length (List.replicate 24 (0 : ℚ)) h⟩

/-- C8: no operation in the three scripts catches or converts a
library-level exception.  For each fallible library call in `check_mean`
(data loading, t-test, Wilcoxon test), in `check_normality` (the four
normality tests, each on the full sample and on the 100-point subsample)
and in `get_CO2_data` (the network fetch), if that call raises while all
preceding calls succeed, then the enclosing function returns exactly that
exception: no retry, no partial result, no conversion. -/
theorem library_errors_propagate {ε : Type} :
    (∀ (e : ε) (tt : List ℚ → ℚ → Except ε (ℝ × ℝ))
        (wx : List ℚ → Except ε (ℝ × ℝ)),
        check_meanExc (Except.error e) tt wx = Except.error e) ∧
    (∀ (e : ε) (data : List ℚ) (tt : List ℚ → ℚ → Except ε (ℝ × ℝ))
        (wx : List ℚ → Except ε (ℝ × ℝ)),
        tt data checkValue = Except.error e →
        check_meanExc (Except.ok data) tt wx = Except.error e) ∧
    (∀ (e : ε) (data : List ℚ) (tt : List ℚ → ℚ → Except ε (ℝ × ℝ))
        (wx : List ℚ → Except ε (ℝ × ℝ)) (tp : ℝ × ℝ),
        tt data checkValue = Except.ok tp →
        wx (data.map (fun x => x - checkValue)) = Except.error e →
        check_meanExc (Except.ok data) tt wx = Except.error e) ∧
    (∀ (e : ε) (nt sh li ks : List ℝ → Except ε (ℝ × ℝ)) (data : List ℝ),
        nt data = Except.error e →
        check_normalityExc nt sh li ks data = Except.error e) ∧
    (∀ (e : ε) (nt sh li ks : List ℝ → Except ε (ℝ × ℝ)) (data : List ℝ)
        (a : ℝ × ℝ), nt data = Except.ok a →
        nt (data.take 100) = Except.error e →
        check_normalityExc nt sh li ks data = Except.error e) ∧
    (∀ (e : ε) (nt sh li ks : List ℝ → Except ε (ℝ × ℝ)) (data : List ℝ)
        (a b : ℝ × ℝ), nt data = Except.ok a →
        nt (data.take 100) = Except.ok b →
        sh data = Except.error e →
        check_normalityExc nt sh li ks data = Except.error e) ∧
    (∀ (e : ε) (nt sh li ks : List ℝ → Except ε (ℝ × ℝ)) (data : List ℝ)
        (a b c : ℝ × ℝ), nt data = Except.ok a →
        nt (data.take 100) = Except.ok b →
        sh data = Except.ok c →
        sh (data.take 100) = Except.error e →
        check_normalityExc nt sh li ks data = Except.error e) ∧
    (∀ (e : ε) (nt sh li ks : List ℝ → Except ε (ℝ × ℝ)) (data : List ℝ)
        (a b c d : ℝ × ℝ), nt data = Except.ok a →
        nt (data.take 100) = Except.ok b →
        sh data = Except.ok c →
        sh (data.take 100) = Except.ok d →
        li data = Except.error e →
        check_normalityExc nt sh li ks data = Except.error e) ∧
    (∀ (e : ε) (nt sh li ks : List ℝ → Except ε (ℝ × ℝ)) (data : List ℝ)
        (a b c d f : ℝ × ℝ), nt data = Except.ok a →
        nt (data.take 100) = Except.ok b →
        sh data = Except.ok c →
        sh (data.take 100) = Except.ok d →
        li data = Except.ok f →
        li (data.take 100) = Except.error e →
        check_normalityExc nt sh li ks data = Except.error e) ∧
    (∀ (e : ε) (nt sh li ks : List ℝ → Except ε (ℝ × ℝ)) (data : List ℝ)
        (a b c d f g : ℝ × ℝ), nt data = Except.ok a →
        nt (data.take 100) = Except.ok b →
        sh data = Except.ok c →
        sh (data.take 100) = Except.ok d →
        li data = Except.ok f →
        li (data.take 100) = Except.ok g →
        ks (standardize data) = Except.error e →
        check_normalityExc nt sh li ks data = Except.error e) ∧
    (∀ (e : ε) (nt sh li ks : List ℝ → Except ε (ℝ × ℝ)) (data : List ℝ)
        (a b c d f g k : ℝ × ℝ), nt data = Except.ok a →
        nt (data.take 100) = Except.ok b →
        sh data = Except.ok c →
        sh (data.take 100) = Except.ok d →
        li data = Except.ok f →
        li (data.take 100) = Except.ok g →
        ks (standardize data) = Except.ok k →
        ks (standardize (data.take 100)) = Except.error e →
        check_normalityExc nt sh li ks data = Except.error e) ∧
    (∀ (DF : Type) (e : ε),
        get_CO2_dataExc ε DF (Except.error e) = Except.error e) := by
  refine ⟨?_, ?_, ?_, ?_, ?_, ?_, ?_, ?_, ?_, ?_, ?_, ?_⟩
  all_goals intros
  all_goals simp_all [check_meanExc, check_normalityExc, get_CO2_dataExc]

/-- C8 (witness): propagation evaluated at explicit failing library calls,
one per script: a failing file load and a failing t-test in `check_mean`,
a failing omnibus test in `check_normality`, and a failing network fetch
in `get_CO2_data`. -/
theorem library_errors_propagate_witness :
    check_meanExc ((Except.error ("file not found")) : Except String (List ℚ))
        (fun _ _ => Except.ok (0, 0)) (fun _ => Except.ok (0, 0))
      = Except.error ("file not found") ∧
    check_meanExc (Except.ok ([0] : List ℚ))
        (fun _ _ => (Except.error ("ttest_1samp raised") : Except String (ℝ × ℝ)))
        (fun _ => Except.ok (0, 0))
      = Except.error ("ttest_1samp raised") ∧
    check_normalityExc
        (fun _ => (Except.error ("normaltest raised") : Except String (ℝ × ℝ)))
        (fun _ => Except.ok (0, 0)) (fun _ => Except.ok (0, 0))
        (fun _ => Except.ok (0, 0)) []
      = Except.error ("normaltest raised") ∧
    get_CO2_dataExc String Unit (Except.error ("network failure"))
      = Except.error ("network failure") := by
  refine ⟨?_, ?_, ?_, ?_⟩
  · exact (library_errors_propagate).1 ("file not found") _ _
  · exact (library_errors_propagate).2.1 ("ttest_1samp raised") [0] _ _ rfl
  · exact (library_errors_propagate).2.2.2.1 ("normaltest raised") _ _ _ _ [] rfl
  · exact (library_errors_propagate).2.2.2.2.2.2.2.2.2.2.2 Unit ("network failure")

/-- C9: `check_normality` returns exactly one value, the p-value of the
Kolmogorov-Smirnov test applied to the standardized full sample — not any
entry computed on the 100-point subsample `pFewVals` and not the p-value
of the omnibus, Shapiro-Wilk or Lilliefors tests. -/
theorem check_normality_returns_full_KS (t : NormalityTests) (data : List ℝ) :
    check_normalityE t data = (t.kstest (standardize data)).2 := by
  rfl

/-- C10: in `compareWithNormal`, the printed comparison line never contains
the numeric t-test probability: the output is independent of `tProb`, the
literal placeholder characters (the text tProb:5.4f between braces) appear
verbatim in it, and the formatted normal-distribution probability is
substituted correctly. -/
theorem compareWithNormal_print_bug (fmt : ℝ → String) (tProb tProb' normProb : ℝ) :
    compareWithNormal_printed fmt tProb normProb
        = compareWithNormal_printed fmt tProb' normProb ∧
      List.IsInfix ("\x7btProb:5.4f\x7d").data
        (compareWithNormal_printed fmt tProb normProb).data ∧
      List.IsInfix (fmt normProb).data
        (compareWithNormal_printed fmt tProb normProb).data := by
  refine ⟨rfl, ?_, ?_⟩
  · exact ⟨("The probability from the t-test is ").data,
      (", and from the normal distribution ").data ++ (fmt normProb).data, rfl⟩
  · exact ⟨("The probability from the t-test is \x7btProb:5.4f\x7d, "
        ++ "and from the normal distribution ").data, [],
      by simp [compareWithNormal_printed, String.data_append]⟩
